import Mathlib

/-!
Shallow embedding of the `pakkio/es` repository: the `EverythingSearch`
wrapper (`src/everything_search.py`) and the MCP adapter layer
(`src/mcp_server.py`).

Conventions of the embedding:
* Python strings are Lean `String`s; Python integers are Lean `Int`s
  (both are arbitrary precision).
* Python dictionaries whose keys are strings or `None` are association
  lists (`List (Option String × PyVal)`) with CPython semantics:
  insertion order is preserved, and inserting an existing key overwrites
  the value in place.
* Fallible Python code is embedded as `Except`; a `.error` value models a
  raised exception.
* The external subprocess is opaque: its observable behaviour (exit code,
  stdout, stderr, or a raised exception at the `subprocess.run` call) is
  passed to the embedded functions as an explicit outcome value.
* Text handled by this program is ASCII (tool flags, CSV columns, error
  messages), so the Python `str` predicates are modelled on their ASCII
  behaviour.
-/

set_option maxRecDepth 10000

/-- Python `str` whitespace as relevant to `str.strip()` on ASCII text:
space, tab, newline, carriage return, vertical tab, form feed. -/
def pyIsSpace (c : Char) : Bool :=
  c == ' ' || c == '\t' || c == '\n' || c == '\r' || c.toNat == 11 || c.toNat == 12

/-- Python `str.strip()` (no argument): drop leading and trailing whitespace. -/
def pyStrip (s : String) : String :=
  String.mk (((s.toList.dropWhile pyIsSpace).reverse.dropWhile pyIsSpace).reverse)

/-- Helper for `pySplitLines`: characters of the current piece are
accumulated in reverse. -/
def pySplitLinesAux : List Char → List Char → List String
  | [], cur => [String.mk cur.reverse]
  | c :: rest, cur =>
    if c == '\n' then String.mk cur.reverse :: pySplitLinesAux rest []
    else pySplitLinesAux rest (c :: cur)

/-- Python `s.split("\n")`: the pieces of `s` between newline characters;
the empty string yields `[""]`. -/
def pySplitLines (s : String) : List String :=
  pySplitLinesAux s.toList []

/-- Python `str.isdigit()` on ASCII text: non-empty and all characters are
decimal digits `0`-`9`. -/
def pyIsdigit (s : String) : Bool :=
  (!s.toList.isEmpty) && s.toList.all Char.isDigit

/-- Python `int(s)` on a string that satisfies `isdigit`: the decimal value. -/
def pyIntOfDigits (s : String) : Int :=
  Int.ofNat (s.toList.foldl (fun n c => 10 * n + (c.toNat - 48)) 0)

/-! ### The CSV reader (`csv.DictReader` on newline-free lines)

`_parse_csv_output` splits the stripped stdout on `"\n"` and feeds the
resulting list of lines to `csv.DictReader`.  The default dialect is
delimiter `,`, quote character `"`, doubled quotes as escapes, not strict.
Each line is parsed as one record by the reader state machine below
(records spanning several input lines via embedded newlines in quoted
fields cannot occur here, because the source splits the text on newlines
before the reader sees it). -/

inductive CsvState where
  | fieldStart
  | inField
  | inQuoted
  | quoteInQuoted
deriving DecidableEq, Repr

/-- One character step of the CPython `csv` reader state machine (default
dialect).  State: fields saved so far (reversed), current field characters
(reversed), parse mode. -/
def csvStep : (List String × List Char × CsvState) → Char → (List String × List Char × CsvState)
  | (fs, cur, CsvState.fieldStart), c =>
    if c == '"' then (fs, cur, CsvState.inQuoted)
    else if c == ',' then (String.mk cur.reverse :: fs, [], CsvState.fieldStart)
    else (fs, c :: cur, CsvState.inField)
  | (fs, cur, CsvState.inField), c =>
    if c == ',' then (String.mk cur.reverse :: fs, [], CsvState.fieldStart)
    else (fs, c :: cur, CsvState.inField)
  | (fs, cur, CsvState.inQuoted), c =>
    if c == '"' then (fs, cur, CsvState.quoteInQuoted)
    else (fs, c :: cur, CsvState.inQuoted)
  | (fs, cur, CsvState.quoteInQuoted), c =>
    if c == '"' then (fs, '"' :: cur, CsvState.inQuoted)
    else if c == ',' then (String.mk cur.reverse :: fs, [], CsvState.fieldStart)
    else (fs, c :: cur, CsvState.inField)

/-- Split one line into CSV fields.  An empty line yields the empty record
`[]` (which `csv.DictReader` skips); any other line yields at least one
field. -/
def splitFields (line : String) : List String :=
  if line == "" then []
  else
    let st := line.toList.foldl csvStep ([], [], CsvState.fieldStart)
    (String.mk st.2.1.reverse :: st.1).reverse

/-- A value stored in a parsed result record: a string field, a
`Size`-coerced integer, Python `None` (the `DictReader` `restval` for a
short row), or the list of extra fields (the `DictReader` `restkey` value
for a long row). -/
inductive PyVal where
  | str (s : String)
  | int (n : Int)
  | pyNone
  | strList (l : List String)
deriving DecidableEq, Repr

/-- A record key: `some name` for a header column, `none` for the Python
`None` used by `DictReader` as its `restkey`. -/
abbrev DictKey := Option String

/-- A Python dict from column keys to values, as an insertion-ordered
association list. -/
abbrev PyDict := List (DictKey × PyVal)

/-- Python dict assignment `d[k] = v`: overwrite in place when the key is
present, append otherwise. -/
def dictInsert (d : PyDict) (k : DictKey) (v : PyVal) : PyDict :=
  if d.any (fun kv => kv.1 == k) then
    d.map (fun kv => if kv.1 == k then (k, v) else kv)
  else d ++ [(k, v)]

/-- Python dict lookup `d[k]` / `k in d`, returning `none` when absent. -/
def dictGet : PyDict → DictKey → Option PyVal
  | [], _ => none
  | kv :: rest, k => if kv.1 == k then some kv.2 else dictGet rest k

/-- One `csv.DictReader` data row: zip the header names with the row
fields; extra fields go under the `restkey` (`None`); missing fields get
the `restval` (`None`). -/
def mkDict (fieldnames row : List String) : PyDict :=
  let base := (List.zip fieldnames row).foldl
    (fun d p => dictInsert d (some p.1) (PyVal.str p.2)) []
  if fieldnames.length < row.length then
    dictInsert base none (PyVal.strList (row.drop fieldnames.length))
  else
    (fieldnames.drop row.length).foldl (fun d k => dictInsert d (some k) PyVal.pyNone) base

/-- `csv.DictReader(lines)`: the first line provides the field names, each
later non-blank line one record. -/
def dictReaderRows (lines : List String) : List PyDict :=
  match lines with
  | [] => []
  | header :: rest =>
    ((rest.map splitFields).filter (fun r => !r.isEmpty)).map (mkDict (splitFields header))

/-- A Python exception escaping `_parse_csv_output`; the only one possible
there is the `AttributeError` from calling `.isdigit()` on a non-string. -/
inductive PyExc where
  | attributeError (msg : String)
deriving DecidableEq, Repr

/-- The `str()` text of the `AttributeError` raised by `v.isdigit()` for a
non-`str` value `v`. -/
def pyValAttrMsg : PyVal → String
  | PyVal.pyNone => "\x27NoneType\x27 object has no attribute \x27isdigit\x27"
  | PyVal.strList _ => "\x27list\x27 object has no attribute \x27isdigit\x27"
  | PyVal.int _ => "\x27int\x27 object has no attribute \x27isdigit\x27"
  | PyVal.str _ => ""

/-- The body of the row loop of `_parse_csv_output`
(`src/everything_search.py:190-194`): when the record has a `"Size"` entry
whose value is an all-digit string, replace it by the integer; a
non-string `"Size"` value makes the `.isdigit()` call raise
`AttributeError`. -/
def coerceRow (row : PyDict) : Except PyExc PyDict :=
  match dictGet row (some "Size") with
  | none => Except.ok row
  | some (PyVal.str s) =>
    if pyIsdigit s then Except.ok (dictInsert row (some "Size") (PyVal.int (pyIntOfDigits s)))
    else Except.ok row
  | some v => Except.error (PyExc.attributeError (pyValAttrMsg v))

/-- The `for row in reader` loop: coerce each row in order, aborting at the
first raised exception. -/
def coerceAll : List PyDict → Except PyExc (List PyDict)
  | [] => Except.ok []
  | r :: rs =>
    match coerceRow r with
    | Except.error e => Except.error e
    | Except.ok r0 =>
      match coerceAll rs with
      | Except.error e => Except.error e
      | Except.ok rs0 => Except.ok (r0 :: rs0)

/-- `EverythingSearch._parse_csv_output` (`src/everything_search.py:178-196`):
empty or whitespace-only stdout, or fewer than two lines after stripping,
yields no records; otherwise the lines go through `csv.DictReader` and the
`Size` coercion loop. -/
def _parse_csv_output (csv_output : String) : Except PyExc (List PyDict) :=
  if pyStrip csv_output == "" then Except.ok []
  else if (pySplitLines (pyStrip csv_output)).length < 2 then Except.ok []
  else coerceAll (dictReaderRows (pySplitLines (pyStrip csv_output)))

/-- Equality of `Except` values with decidable components is decidable;
used to evaluate the embedded parser on concrete inputs. -/
instance {ε α : Type} [DecidableEq ε] [DecidableEq α] : DecidableEq (Except ε α) :=
  fun a b =>
  match a, b with
  | Except.ok x, Except.ok y =>
    if h : x = y then isTrue (by rw [h]) else isFalse (by intro hc; cases hc; exact h rfl)
  | Except.error x, Except.error y =>
    if h : x = y then isTrue (by rw [h]) else isFalse (by intro hc; cases hc; exact h rfl)
  | Except.ok _, Except.error _ => isFalse (by intro hc; cases hc)
  | Except.error _, Except.ok _ => isFalse (by intro hc; cases hc)

/-! ### The argument builder (`EverythingSearch.search`, lines 94-161)

`QueryConfig` mirrors the keyword parameters of `search`; field defaults
match the Python defaults.  `Option String` filters follow Python
truthiness: `None` and the empty string both suppress the flag. -/

structure QueryConfig where
  query : String := ""
  regex : Bool := false
  case_sensitive : Bool := false
  whole_words : Bool := false
  match_path : Bool := false
  match_diacritics : Bool := false
  max_results : Option Int := none
  offset : Int := 0
  path_filter : Option String := none
  parent_path : Option String := none
  parent : Option String := none
  folders_only : Bool := false
  files_only : Bool := false
  attributes : Option String := none
  sort_by : Option String := none
  sort_ascending : Bool := true
  include_name : Bool := true
  include_path : Bool := false
  include_full_path : Bool := false
  include_extension : Bool := false
  include_size : Bool := false
  include_date_created : Bool := false
  include_date_modified : Bool := false
  include_date_accessed : Bool := false
  include_attributes : Bool := false
  timeout : Int := 5000
deriving DecidableEq, Repr

/-- Python `if opt:` on an optional string: truthy exactly when present and
non-empty; on truthy values contribute the tokens `f opt`. -/
def pyTruthyOpt (o : Option String) (f : String → List String) : List String :=
  match o with
  | none => []
  | some s => if s == "" then [] else f s

/-- The file-type filter step (`src/everything_search.py:126-129`):
`if folders_only: cmd.append("/ad") elif files_only: cmd.append("/a-d")`. -/
def file_type_filter (q : QueryConfig) : List String :=
  if q.folders_only then ["/ad"]
  else if q.files_only then ["/a-d"]
  else []

/-- The argument vector built by `EverythingSearch.search`
(`src/everything_search.py:94-161`), one `++` per `append`/`extend` of the
source, in source order. -/
def build_search_cmd (es_path : String) (q : QueryConfig) : List String :=
  [es_path]
  ++ (if q.regex then ["-regex", q.query] else [q.query])
  ++ (if q.case_sensitive then ["-case"] else [])
  ++ (if q.whole_words then ["-whole-words"] else [])
  ++ (if q.match_path then ["-match-path"] else [])
  ++ (if q.match_diacritics then ["-diacritics"] else [])
  ++ (match q.max_results with
      | some n => ["-max-results", toString n]
      | none => [])
  ++ (if q.offset > 0 then ["-offset", toString q.offset] else [])
  ++ pyTruthyOpt q.path_filter (fun s => ["-path", s])
  ++ pyTruthyOpt q.parent_path (fun s => ["-parent-path", s])
  ++ pyTruthyOpt q.parent (fun s => ["-parent", s])
  ++ file_type_filter q
  ++ pyTruthyOpt q.attributes (fun s => ["/a" ++ s])
  ++ pyTruthyOpt q.sort_by (fun s =>
      ["-sort", s ++ "-" ++ (if q.sort_ascending then "ascending" else "descending")])
  ++ (if q.include_name then ["-name"] else [])
  ++ (if q.include_path then ["-path-column"] else [])
  ++ (if q.include_full_path then ["-full-path-and-name"] else [])
  ++ (if q.include_extension then ["-extension"] else [])
  ++ (if q.include_size then ["-size"] else [])
  ++ (if q.include_date_created then ["-date-created"] else [])
  ++ (if q.include_date_modified then ["-date-modified"] else [])
  ++ (if q.include_date_accessed then ["-date-accessed"] else [])
  ++ (if q.include_attributes then ["-attributes"] else [])
  ++ ["-csv", "-timeout", toString q.timeout]

/-! ### The subprocess call of `search` (lines 163-176)

The observable behaviour of `subprocess.run` is an explicit outcome:
either the process completed (exit code, stdout, stderr), or the call
raised `subprocess.TimeoutExpired`, or it raised some other exception. -/

inductive RunOutcome where
  | completed (returncode : Int) (stdout stderr : String)
  | timeoutExpired
  | raised (msg : String)
deriving DecidableEq, Repr

/-- An exception raised by the wrapper methods: `RuntimeError`,
`TimeoutError` or the constructor-time `FileNotFoundError`.  Each carries
its `str()` text. -/
inductive SearchExc where
  | runtimeError (msg : String)
  | timeoutError (msg : String)
  | fileNotFoundError (msg : String)
deriving DecidableEq, Repr

/-- Python `str()` of a `PyExc`. -/
def pyExcStr : PyExc → String
  | PyExc.attributeError m => m

/-- The `try`/`except` of `EverythingSearch.search`
(`src/everything_search.py:163-176`).  A non-zero exit raises
`RuntimeError(f"Everything Search failed: {stderr}")` inside the `try`,
which the blanket `except Exception` immediately rewraps as
`RuntimeError(f"Error executing search: {str(e)}")`; an exception from
`_parse_csv_output` is wrapped the same way; `subprocess.TimeoutExpired`
alone becomes a `TimeoutError`. -/
def search (timeout : Int) (o : RunOutcome) : Except SearchExc (List PyDict) :=
  match o with
  | RunOutcome.completed rc out err =>
    if rc ≠ 0 then
      Except.error (SearchExc.runtimeError
        ("Error executing search: Everything Search failed: " ++ err))
    else
      match _parse_csv_output out with
      | Except.ok rows => Except.ok rows
      | Except.error e =>
        Except.error (SearchExc.runtimeError ("Error executing search: " ++ pyExcStr e))
  | RunOutcome.timeoutExpired =>
    Except.error (SearchExc.timeoutError
      ("Search timed out after " ++ toString timeout ++ "ms"))
  | RunOutcome.raised m =>
    Except.error (SearchExc.runtimeError ("Error executing search: " ++ m))

/-- The host-level timeout passed to `subprocess.run` by `search`: the call
at `src/everything_search.py:164-166` passes `capture_output`, `text`,
`encoding` and `errors` but no `timeout` argument, so none. -/
def search_run_host_timeout : Option Int := none

/-- Which `subprocess.run` outcomes are possible under a given host-level
timeout: per the `subprocess` contract, `TimeoutExpired` is raised only
when a `timeout` argument was supplied to the call. -/
def possibleRunOutcome (hostTimeout : Option Int) : RunOutcome → Prop
  | RunOutcome.timeoutExpired => hostTimeout ≠ none
  | _ => True

/-- Whether a `search` result is the distinct timeout error. -/
def isTimeoutError : Except SearchExc (List PyDict) → Bool
  | Except.error (SearchExc.timeoutError _) => true
  | _ => false

/-! ### `get_version` and `get_result_count` (lines 238-257)

Both invoke `subprocess.run` without a `timeout` argument, so the call
either completes or raises an ordinary exception. -/

inductive CallOutcome where
  | completed (returncode : Int) (stdout stderr : String)
  | raised (msg : String)
deriving DecidableEq, Repr

/-- `EverythingSearch.get_version` (`src/everything_search.py:238-246`):
return the stripped stdout of `[es_path, "-version"]`; the exit code is
never inspected.  An exception from `subprocess.run` is wrapped as
`RuntimeError(f"Error getting version: {str(e)}")`. -/
def get_version (o : CallOutcome) : Except SearchExc String :=
  match o with
  | CallOutcome.completed _ out _ => Except.ok (pyStrip out)
  | CallOutcome.raised m =>
    Except.error (SearchExc.runtimeError ("Error getting version: " ++ m))

/-- Digit groups of a Python integer literal body: decimal digits with
single underscores allowed between digits, accumulating the value. -/
def pyIntDigits : List Char → Int → Option Int
  | [], acc => some acc
  | '_' :: c :: rest, acc =>
    if c.isDigit then pyIntDigits rest (10 * acc + (Int.ofNat c.toNat - 48)) else none
  | c :: rest, acc =>
    if c.isDigit then pyIntDigits rest (10 * acc + (Int.ofNat c.toNat - 48)) else none

/-- Body of `pyInt` after the optional sign: a non-empty digit sequence. -/
def pyIntCore (l : List Char) : Option Int :=
  match l with
  | [] => none
  | c :: rest => if c.isDigit then pyIntDigits rest (Int.ofNat c.toNat - 48) else none

/-- Python `int(s)` on a string (ASCII): strip whitespace, then an optional
sign followed by decimal digits (single underscores allowed between
digits); `none` models the `ValueError` raised on any other input. -/
def pyInt (s : String) : Option Int :=
  match (pyStrip s).toList with
  | '+' :: rest => pyIntCore rest
  | '-' :: rest => (pyIntCore rest).map (fun n => -n)
  | l => pyIntCore l

/-- The `try` body of `EverythingSearch.get_result_count`
(`src/everything_search.py:251-255`): on exit code `0`, `int(stdout.strip())`
(whose `ValueError` on unparsable text is modelled by the `.error` case);
on a non-zero exit, `0`. -/
def get_result_count_body (rc : Int) (stdout : String) : Except String Int :=
  if rc = 0 then
    match pyInt stdout with
    | some n => Except.ok n
    | none => Except.error "ValueError: invalid literal for int with base 10"
  else Except.ok 0

/-- `EverythingSearch.get_result_count` (`src/everything_search.py:248-257`):
the `try` body with `except Exception: return 0` around it, covering both a
raised `subprocess.run` call and an unparsable stdout. -/
def get_result_count (o : CallOutcome) : Int :=
  match o with
  | CallOutcome.raised _ => 0
  | CallOutcome.completed rc out _ =>
    match get_result_count_body rc out with
    | Except.ok n => n
    | Except.error _ => 0

/-! ### The MCP adapter layer (`src/mcp_server.py`)

Every tool handler has the same shape: a `try` body that obtains the
shared `EverythingSearch` instance (whose constructor raises
`FileNotFoundError` when the executable path does not exist), runs a
search, and returns `json.dumps(results, indent=2)`; the blanket
`except Exception as e` returns `json.dumps({"error": str(e)})`.  The
serializer below models `json.dumps` (default `ensure_ascii`) on the value
shapes that occur here. -/

/-- Lowercase hexadecimal digit. -/
def hexDigitChar (n : Nat) : Char :=
  if n < 10 then Char.ofNat (48 + n) else Char.ofNat (87 + n)

/-- Four-digit lowercase hexadecimal rendering, as in JSON `\uXXXX`. -/
def hex4 (n : Nat) : String :=
  String.mk [hexDigitChar (n / 4096 % 16), hexDigitChar (n / 256 % 16),
    hexDigitChar (n / 16 % 16), hexDigitChar (n % 16)]

/-- JSON `\u` escape of a code point, with a surrogate pair above
`0xFFFF`, as produced by `json.dumps` with `ensure_ascii`. -/
def jsonUEscape (n : Nat) : String :=
  if n < 65536 then "\\u" ++ hex4 n
  else
    "\\u" ++ hex4 (55296 + (n - 65536) / 1024) ++ "\\u" ++ hex4 (56320 + (n - 65536) % 1024)

/-- Escape of one character inside a JSON string literal
(`json.dumps` default `ensure_ascii=True`). -/
def jsonEscapeChar (c : Char) : String :=
  if c == '"' then "\\\""
  else if c == '\\' then "\\\\"
  else if c == '\n' then "\\n"
  else if c == '\t' then "\\t"
  else if c == '\r' then "\\r"
  else if c.toNat == 8 then "\\b"
  else if c.toNat == 12 then "\\f"
  else if c.toNat < 32 || 126 < c.toNat then jsonUEscape c.toNat
  else String.mk [c]

/-- A JSON string literal for `s`, as rendered by `json.dumps`. -/
def pyJsonStr (s : String) : String :=
  "\"" ++ String.join (s.toList.map jsonEscapeChar) ++ "\""

/-- Join non-empty rendered pieces with a separator. -/
def joinSep (sep : String) : List String → String
  | [] => ""
  | [x] => x
  | x :: xs => x ++ sep ++ joinSep sep xs

/-- A record key as serialized by `json.dumps`: a Python `None` key is
rendered as the string `"null"`. -/
def jsonKeyStr : DictKey → String
  | some s => pyJsonStr s
  | none => pyJsonStr "null"

/-- A record value at nesting depth 2 of `json.dumps(results, indent=2)`. -/
def dumpsValIndent2 : PyVal → String
  | PyVal.str s => pyJsonStr s
  | PyVal.int n => toString n
  | PyVal.pyNone => "null"
  | PyVal.strList [] => "[]"
  | PyVal.strList l =>
    "[\n" ++ joinSep ",\n" (l.map (fun s => "      " ++ pyJsonStr s)) ++ "\n    ]"

/-- One record at nesting depth 1 of `json.dumps(results, indent=2)`. -/
def dumpsRowIndent2 (row : PyDict) : String :=
  match row with
  | [] => "\x7b\x7d"
  | _ =>
    "\x7b\n"
    ++ joinSep ",\n" (row.map (fun kv => "    " ++ jsonKeyStr kv.1 ++ ": " ++ dumpsValIndent2 kv.2))
    ++ "\n  \x7d"

/-- `json.dumps(results, indent=2)` for a parsed result list. -/
def dumpsRowsIndent2 (rows : List PyDict) : String :=
  match rows with
  | [] => "[]"
  | _ => "[\n" ++ joinSep ",\n" (rows.map (fun r => "  " ++ dumpsRowIndent2 r)) ++ "\n]"

/-- Python `str()` of a wrapper exception: its message. -/
def pyStrOfSearchExc : SearchExc → String
  | SearchExc.runtimeError m => m
  | SearchExc.timeoutError m => m
  | SearchExc.fileNotFoundError m => m

/-- `json.dumps({"error": msg})`: the uniform serialized error object of the
MCP tool handlers, a single-field JSON object. -/
def mcp_error_json (msg : String) : String :=
  "\x7b\"error\": " ++ pyJsonStr msg ++ "\x7d"

/-- The default executable location of `EverythingSearch.__init__`
(`src/everything_search.py:18`), used by `get_everything_search()` in the
MCP server. -/
def default_es_path : String := "/mnt/c/Program Files/Everything/es.exe"

/-- `EverythingSearch.__init__` (`src/everything_search.py:18-29`): raises
`FileNotFoundError` when `os.path.exists(es_path)` is false; the
`os.path.exists` answer is passed in as `pathExists`. -/
def everything_search_init (es_path : String) (pathExists : Bool) : Except SearchExc Unit :=
  if pathExists then Except.ok ()
  else Except.error (SearchExc.fileNotFoundError
    ("Everything Search executable not found at: " ++ es_path))

/-- The `try` body of the `search_files` MCP tool
(`src/mcp_server.py:56-69`): construct or reuse the instance, run the
search, serialize the result list. -/
def search_files_body (pathExists : Bool) (timeout : Int) (o : RunOutcome) :
    Except SearchExc String :=
  match everything_search_init default_es_path pathExists with
  | Except.error e => Except.error e
  | Except.ok _ =>
    match search timeout o with
    | Except.error e => Except.error e
    | Except.ok rows => Except.ok (dumpsRowsIndent2 rows)

/-- The `search_files` MCP tool (`src/mcp_server.py:29-71`): the `try` body
with `except Exception as e: return json.dumps({"error": str(e)})`. -/
def search_files_tool (pathExists : Bool) (timeout : Int) (o : RunOutcome) : String :=
  match search_files_body pathExists timeout o with
  | Except.ok s => s
  | Except.error e => mcp_error_json (pyStrOfSearchExc e)

/-- The `try` body of the `advanced_search` MCP tool
(`src/mcp_server.py:264-285`): same boundary shape as `search_files`. -/
def advanced_search_body (pathExists : Bool) (timeout : Int) (o : RunOutcome) :
    Except SearchExc String :=
  match everything_search_init default_es_path pathExists with
  | Except.error e => Except.error e
  | Except.ok _ =>
    match search timeout o with
    | Except.error e => Except.error e
    | Except.ok rows => Except.ok (dumpsRowsIndent2 rows)

/-- The `advanced_search` MCP tool (`src/mcp_server.py:224-287`). -/
def advanced_search_tool (pathExists : Bool) (timeout : Int) (o : RunOutcome) : String :=
  match advanced_search_body pathExists timeout o with
  | Except.ok s => s
  | Except.error e => mcp_error_json (pyStrOfSearchExc e)

/-! ### Concrete configurations used to instantiate the theorems below -/

/-- A regex query configuration. -/
def qRegex : QueryConfig := { query := "foo", regex := true }

/-- A plain non-empty query configuration. -/
def qPlain : QueryConfig := { query := "bar" }

/-- Both file-type flags enabled, with a query string that happens to equal
the files-only marker token. -/
def qBothMarkers : QueryConfig := { query := "/a-d", folders_only := true, files_only := true }

/-- The coercion contract of one parsed record entry: an integer value can
sit only in the `"Size"` column, and a `"Size"` value is either such an
integer or a string that is not all digits (an all-digit `"Size"` string
never survives uncoerced). -/
def onlySizeCoerced (kv : DictKey × PyVal) : Prop :=
  ((∀ n, kv.2 ≠ PyVal.int n) ∨ kv.1 = some "Size")
  ∧ (kv.1 = some "Size" →
      (∃ n, kv.2 = PyVal.int n) ∨ (∃ t, kv.2 = PyVal.str t ∧ pyIsdigit t = false))

/-! ### Structural lemmas about the dictionary and the row coercion -/

theorem dictInsert_mem {d : PyDict} {k : DictKey} {v : PyVal} {kv : DictKey × PyVal}
    (h : kv ∈ dictInsert d k v) : kv = (k, v) ∨ (kv ∈ d ∧ kv.1 ≠ k) := by
  unfold dictInsert at h
  by_cases hany : d.any (fun kv => kv.1 == k)
  · rw [if_pos hany] at h
    rcases List.mem_map.1 h with ⟨kv0, hkv0, hf⟩
    by_cases hk : kv0.1 = k
    · left
      simpa [hk] using hf.symm
    · right
      simp only [hk, beq_iff_eq, if_false] at hf
      exact hf ▸ ⟨hkv0, hk⟩
  · rw [if_neg hany] at h
    rcases List.mem_append.1 h with h0 | h0
    · right
      refine ⟨h0, fun hk => hany ?_⟩
      exact List.any_eq_true.2 ⟨kv, h0, by simpa using hk⟩
    · left
      simpa using h0

theorem dictInsert_keys_nodup {d : PyDict} {k : DictKey} {v : PyVal}
    (h : (d.map Prod.fst).Nodup) : ((dictInsert d k v).map Prod.fst).Nodup := by
  unfold dictInsert
  by_cases hany : d.any (fun kv => kv.1 == k)
  · rw [if_pos hany, List.map_map]
    have : d.map (Prod.fst ∘ fun kv => if kv.1 == k then (k, v) else kv) = d.map Prod.fst := by
      apply List.map_congr_left
      intro kv _
      by_cases hk : kv.1 = k
      · simp [hk]
      · simp [hk]
    rw [this]
    exact h
  · rw [if_neg hany, List.map_append]
    rw [List.nodup_append]
    refine ⟨h, List.nodup_singleton _, ?_⟩
    intro a ha hb
    simp only [List.map_cons, List.map_nil, List.mem_singleton] at hb
    rcases List.mem_map.1 ha with ⟨kv, hkv, rfl⟩
    exact hany (List.any_eq_true.2 ⟨kv, hkv, by simpa using hb⟩)

theorem dictGet_eq_none {d : PyDict} {k : DictKey} (h : dictGet d k = none) :
    ∀ kv ∈ d, kv.1 ≠ k := by
  induction d with
  | nil => intro kv hkv; cases hkv
  | cons hd tl ih =>
    intro kv hkv
    unfold dictGet at h
    by_cases hk : hd.1 = k
    · simp [hk] at h
    · rw [if_neg (by simpa using hk)] at h
      rcases List.mem_cons.1 hkv with rfl | hkv
      · exact hk
      · exact ih h kv hkv

theorem dictGet_of_mem_nodup {d : PyDict} {kv : DictKey × PyVal}
    (hnd : (d.map Prod.fst).Nodup) (h : kv ∈ d) : dictGet d kv.1 = some kv.2 := by
  induction d with
  | nil => cases h
  | cons hd tl ih =>
    rcases List.mem_cons.1 h with rfl | h
    · simp [dictGet]
    · have hne : hd.1 ≠ kv.1 := by
        intro he
        have : kv.1 ∈ tl.map Prod.fst := List.mem_map.2 ⟨kv, h, rfl⟩
        rw [List.map_cons, List.nodup_cons] at hnd
        exact hnd.1 (he ▸ this)
      rw [List.map_cons, List.nodup_cons] at hnd
      unfold dictGet
      rw [if_neg (by simpa using hne)]
      exact ih hnd.2 h

theorem foldl_dictInsert_val {α : Type} (g : α → DictKey × PyVal) (P : PyVal → Prop)
    (hg : ∀ a, P (g a).2) :
    ∀ (l : List α) (d0 : PyDict), (∀ kv ∈ d0, P kv.2) →
      ∀ kv ∈ l.foldl (fun d a => dictInsert d (g a).1 (g a).2) d0, P kv.2 := by
  intro l
  induction l with
  | nil => intro d0 h0 kv hkv; exact h0 kv hkv
  | cons a l ih =>
    intro d0 h0 kv hkv
    refine ih (dictInsert d0 (g a).1 (g a).2) ?_ kv hkv
    intro kv0 hkv0
    rcases dictInsert_mem hkv0 with rfl | ⟨hm, _⟩
    · exact hg a
    · exact h0 kv0 hm

theorem foldl_dictInsert_nodup {α : Type} (g : α → DictKey × PyVal) :
    ∀ (l : List α) (d0 : PyDict), (d0.map Prod.fst).Nodup →
      ((l.foldl (fun d a => dictInsert d (g a).1 (g a).2) d0).map Prod.fst).Nodup := by
  intro l
  induction l with
  | nil => intro d0 h0; exact h0
  | cons a l ih => intro d0 h0; exact ih _ (dictInsert_keys_nodup h0)

/-- Every value produced by the `DictReader` row constructor is a string,
`None`, or the extra-field list — never an integer. -/
theorem mkDict_val {fieldnames row : List String} :
    ∀ kv ∈ mkDict fieldnames row, ∀ n, kv.2 ≠ PyVal.int n := by
  intro kv hkv
  unfold mkDict at hkv
  set P : PyVal → Prop := fun v => ∀ n, v ≠ PyVal.int n
  have hbase : ∀ kv0 ∈ (List.zip fieldnames row).foldl
      (fun d p => dictInsert d (some p.1) (PyVal.str p.2)) [], P kv0.2 := by
    refine foldl_dictInsert_val
      (fun p : String × String => ((some p.1 : DictKey), PyVal.str p.2)) P ?_ _ _ ?_
    · intro a n; simp
    · intro kv0 hkv0; cases hkv0
  by_cases hlen : fieldnames.length < row.length
  · rw [if_pos hlen] at hkv
    rcases dictInsert_mem hkv with rfl | ⟨hm, _⟩
    · intro n; simp
    · exact hbase kv hm
  · rw [if_neg hlen] at hkv
    refine foldl_dictInsert_val
      (fun k : String => ((some k : DictKey), PyVal.pyNone)) P ?_ _ _ hbase kv hkv
    intro a n; simp

/-- The `DictReader` row constructor produces distinct keys. -/
theorem mkDict_nodup {fieldnames row : List String} :
    ((mkDict fieldnames row).map Prod.fst).Nodup := by
  unfold mkDict
  have hbase : (((List.zip fieldnames row).foldl
      (fun d p => dictInsert d (some p.1) (PyVal.str p.2)) []).map Prod.fst).Nodup := by
    refine foldl_dictInsert_nodup
      (fun p : String × String => ((some p.1 : DictKey), PyVal.str p.2)) _ _ ?_
    simp
  by_cases hlen : fieldnames.length < row.length
  · rw [if_pos hlen]
    exact dictInsert_keys_nodup hbase
  · rw [if_neg hlen]
    exact foldl_dictInsert_nodup
      (fun k : String => ((some k : DictKey), PyVal.pyNone)) _ _ hbase

/-- Row coercion on a record with distinct keys and no pre-existing integer
values (as produced by `DictReader`) establishes the coercion contract for
every entry of the resulting record. -/
theorem coerceRow_ok_mem {row row0 : PyDict}
    (hnd : (row.map Prod.fst).Nodup)
    (hni : ∀ kv ∈ row, ∀ n, kv.2 ≠ PyVal.int n)
    (h : coerceRow row = Except.ok row0) :
    ∀ kv ∈ row0, onlySizeCoerced kv := by
  intro kv hkv
  unfold coerceRow at h
  split at h
  · -- `"Size"` is absent from the record
    rename_i hget
    cases h
    refine ⟨Or.inl (hni kv hkv), fun hsz => absurd hsz (dictGet_eq_none hget kv hkv)⟩
  · -- `"Size"` holds a string
    rename_i s hget
    by_cases hdig : pyIsdigit s
    · rw [if_pos hdig] at h
      cases h
      rcases dictInsert_mem hkv with rfl | ⟨hm, hne⟩
      · exact ⟨Or.inr rfl, fun _ => Or.inl ⟨_, rfl⟩⟩
      · exact ⟨Or.inl (hni kv hm), fun hsz => absurd hsz hne⟩
    · rw [if_neg hdig] at h
      cases h
      constructor
      · exact Or.inl (hni kv hkv)
      · intro hsz
        have hu := dictGet_of_mem_nodup hnd hkv
        rw [hsz, hget] at hu
        exact Or.inr ⟨s, (Option.some.inj hu).symm, by simpa using hdig⟩
  · -- `"Size"` holds a non-string: the loop raised
    simp at h

/-- A record in the output of the coercion loop comes from one record of
its input, coerced without an exception. -/
theorem coerceAll_ok_mem :
    ∀ {l l0 : List PyDict}, coerceAll l = Except.ok l0 →
      ∀ r0 ∈ l0, ∃ r ∈ l, coerceRow r = Except.ok r0 := by
  intro l
  induction l with
  | nil =>
    intro l0 h r0 hr0
    cases h
    cases hr0
  | cons r rs ih =>
    intro l0 h r0 hr0
    unfold coerceAll at h
    cases hc : coerceRow r with
    | error e => rw [hc] at h; cases h
    | ok rr =>
      rw [hc] at h
      cases ha : coerceAll rs with
      | error e => rw [ha] at h; cases h
      | ok rs0 =>
        rw [ha] at h
        cases h
        rcases List.mem_cons.1 hr0 with rfl | hr0
        · exact ⟨r, List.mem_cons_self r rs, hc⟩
        · rcases ih ha r0 hr0 with ⟨r1, hr1, hcr⟩
          exact ⟨r1, List.mem_cons_of_mem r hr1, hcr⟩

/-- Every record handed to the coercion loop by `DictReader` is built by
`mkDict`. -/
theorem dictReaderRows_mem {lines : List String} :
    ∀ r ∈ dictReaderRows lines, ∃ fns row, r = mkDict fns row := by
  intro r hr
  cases lines with
  | nil => cases hr
  | cons header rest =>
    unfold dictReaderRows at hr
    rcases List.mem_map.1 hr with ⟨row, _, rfl⟩
    exact ⟨splitFields header, row, rfl⟩

/-! ### Claim theorems -/

/-- Claim C1: the claim asserts that a subprocess exceeding the allotted
time surfaces a distinct timeout error at the host call boundary.  The
code contradicts this: the `subprocess.run` call of `search` passes no
`timeout` argument (`search_run_host_timeout = none`), so
`subprocess.TimeoutExpired` can never be raised, the
`except subprocess.TimeoutExpired` branch is unreachable, and no possible
outcome of the call makes `search` surface the distinct `TimeoutError`. -/
theorem c1_no_distinct_timeout_error (t : Int) (o : RunOutcome)
    (h : possibleRunOutcome search_run_host_timeout o) :
    isTimeoutError (search t o) = false := by
  cases o with
  | completed rc out err =>
    simp only [search]
    by_cases h1 : rc ≠ 0
    · rw [if_pos h1]; rfl
    · rw [if_neg h1]
      cases hp : _parse_csv_output out <;> rfl
  | timeoutExpired =>
    simp [possibleRunOutcome, search_run_host_timeout] at h
  | raised m => rfl

/-- Claim C1 witness: the tool-side timeout of `es.exe` (which exits
non-zero) surfaces as an execution failure, not as the timeout error. -/
theorem c1_witness :
    isTimeoutError (search 5000 (RunOutcome.completed 1 "" "es: IPC timeout")) = false :=
  c1_no_distinct_timeout_error 5000 (RunOutcome.completed 1 "" "es: IPC timeout")
    (by exact True.intro)

/-- Claim C2: a non-zero subprocess exit makes `search` raise an
execution-failure `RuntimeError` whose message carries the captured
standard-error text (rewrapped once by the blanket `except` clause), and
never a result list. -/
theorem c2_nonzero_exit_error (t rc : Int) (out err : String) (h : rc ≠ 0) :
    search t (RunOutcome.completed rc out err) =
      Except.error (SearchExc.runtimeError
        ("Error executing search: Everything Search failed: " ++ err)) := by
  simp only [search]
  rw [if_pos h]

/-- Claim C2 witness at exit code 1 with stderr `"boom"`. -/
theorem c2_witness :
    search 5000 (RunOutcome.completed 1 "Name\nx.txt" "boom") =
      Except.error (SearchExc.runtimeError
        "Error executing search: Everything Search failed: boom") :=
  c2_nonzero_exit_error 5000 1 "Name\nx.txt" "boom" (by decide)

/-- Claim C3: in every successfully parsed output, an integer value occurs
only in the column literally named `"Size"`, a `"Size"` string value is
never all digits (all-digit `"Size"` fields are always converted), and the
documented example parses to `Size = 1024` (integer) and `Size = "abc"`
(string). -/
theorem c3_size_coercion :
    (∀ (s : String) (rows : List PyDict), _parse_csv_output s = Except.ok rows →
      ∀ row ∈ rows, ∀ kv ∈ row, onlySizeCoerced kv)
    ∧ _parse_csv_output "Filename,Size\ntest.txt,1024\nexample.py,abc" =
        Except.ok
          [[(some "Filename", PyVal.str "test.txt"), (some "Size", PyVal.int 1024)],
           [(some "Filename", PyVal.str "example.py"), (some "Size", PyVal.str "abc")]] := by
  constructor
  · intro s rows hp row hrow kv hkv
    unfold _parse_csv_output at hp
    split at hp
    · cases hp; cases hrow
    · split at hp
      · cases hp; cases hrow
      · rcases coerceAll_ok_mem hp row hrow with ⟨r, hr, hcr⟩
        rcases dictReaderRows_mem r hr with ⟨fns, row1, rfl⟩
        exact coerceRow_ok_mem mkDict_nodup mkDict_val hcr kv hkv
  · decide

/-- Claim C3 witness: the coercion contract instantiated at the `"Size"`
entry of the first record of the documented example. -/
theorem c3_witness : onlySizeCoerced ((some "Size" : DictKey), PyVal.int 1024) :=
  c3_size_coercion.1 "Filename,Size\ntest.txt,1024\nexample.py,abc"
    [[(some "Filename", PyVal.str "test.txt"), (some "Size", PyVal.int 1024)],
     [(some "Filename", PyVal.str "example.py"), (some "Size", PyVal.str "abc")]]
    (by decide)
    [(some "Filename", PyVal.str "test.txt"), (some "Size", PyVal.int 1024)]
    (by decide)
    ((some "Size" : DictKey), PyVal.int 1024)
    (by decide)

/-- Claim C4: with regex enabled the built argument list carries the
`-regex` token immediately followed by the query token (at positions 1 and
2); with regex disabled and a non-empty query, the query is the token at
position 1, directly after the executable token. -/
theorem c4_query_token_position (es : String) (q : QueryConfig) :
    (q.regex = true →
      List.get? (build_search_cmd es q) 1 = some "-regex" ∧
      List.get? (build_search_cmd es q) 2 = some q.query)
    ∧ (q.regex = false → q.query ≠ "" →
      List.get? (build_search_cmd es q) 1 = some q.query) := by
  constructor
  · intro h
    constructor <;> simp [build_search_cmd, h]
  · intro h _
    simp [build_search_cmd, h]

/-- Claim C4 witness at a regex configuration and a plain configuration. -/
theorem c4_witness :
    (List.get? (build_search_cmd "es.exe" qRegex) 1 = some "-regex" ∧
      List.get? (build_search_cmd "es.exe" qRegex) 2 = some "foo") ∧
    List.get? (build_search_cmd "es.exe" qPlain) 1 = some "bar" :=
  ⟨(c4_query_token_position "es.exe" qRegex).1 rfl,
   (c4_query_token_position "es.exe" qPlain).2 rfl (by decide)⟩

/-- Claim C5 counterexample: with both file-type flags enabled and the
query string `"/a-d"`, the built argument list does contain the files-only
marker token (as the query token at position 1), so the claim "the
ArgumentList ... does not contain the files-only marker token" is false as
stated. -/
theorem c5_counterexample :
    qBothMarkers.folders_only = true ∧ qBothMarkers.files_only = true ∧
      "/a-d" ∈ build_search_cmd "es.exe" qBothMarkers := by decide

/-- Claim C5 (amended): with both flags enabled, the file-type-filter step
contributes exactly the folders-only marker `"/ad"` (and hence no
files-only marker), and the built argument list contains `"/ad"`; the
string `"/a-d"` can still enter the list through other fields such as the
query. -/
theorem c5_amended_folders_precedence (es : String) (q : QueryConfig)
    (hfo : q.folders_only = true) (_hfi : q.files_only = true) :
    file_type_filter q = ["/ad"] ∧ "/ad" ∈ build_search_cmd es q := by
  have hft : file_type_filter q = ["/ad"] := by simp [file_type_filter, hfo]
  refine ⟨hft, ?_⟩
  unfold build_search_cmd
  rw [hft]
  simp

/-- Claim C5 witness at the configuration with both flags enabled. -/
theorem c5_witness :
    file_type_filter qBothMarkers = ["/ad"] ∧
      "/ad" ∈ build_search_cmd "es.exe" qBothMarkers :=
  c5_amended_folders_precedence "es.exe" qBothMarkers rfl rfl

/-- Claim C6: empty input, whitespace-only input, or input with fewer than
two lines after stripping parses to the empty result list, with no
exception. -/
theorem c6_empty_input (s : String)
    (h : pyStrip s = "" ∨ (pySplitLines (pyStrip s)).length < 2) :
    _parse_csv_output s = Except.ok [] := by
  unfold _parse_csv_output
  by_cases h1 : pyStrip s == ""
  · rw [if_pos h1]
  · rw [if_neg h1]
    rcases h with h | h
    · exact absurd h (by simpa using h1)
    · show (if (pySplitLines (pyStrip s)).length < 2 then Except.ok [] else _) = Except.ok []
      rw [if_pos h]

/-- Claim C6 witness: a single header line with no data rows. -/
theorem c6_witness : _parse_csv_output "header" = Except.ok [] :=
  c6_empty_input "header" (Or.inr (by decide))

/-- Claim C7: `get_result_count` returns the stdout parsed as a bare
integer exactly when the exit code is zero and the text parses, and `0` on
a non-zero exit, on unparsable output (`Option.getD 0`), or on a raised
subprocess call; being a total function into `Int`, it never raises. -/
theorem c7_count_never_raises :
    (∀ (rc : Int) (out err : String),
      get_result_count (CallOutcome.completed rc out err) =
        if rc = 0 then (pyInt out).getD 0 else 0)
    ∧ (∀ m : String, get_result_count (CallOutcome.raised m) = 0) := by
  constructor
  · intro rc out err
    unfold get_result_count get_result_count_body
    by_cases h : rc = 0
    · simp only [if_pos h]
      cases hp : pyInt out <;> simp [hp]
    · simp only [if_neg h]
  · intro m
    rfl

/-- Claim C8: each MCP tool handler (modelled here for the cited
`search_files` and `advanced_search`) is a total function into `String`:
every invocation returns either the serialized result list or the uniform
single-field serialized error object, for each of the underlying failure
kinds (missing executable, execution failure, timeout); no exception
crosses the transport boundary. -/
theorem c8_adapter_boundary (pathExists : Bool) (t : Int) (o : RunOutcome) :
    (∃ rows, search t o = Except.ok rows ∧ pathExists = true ∧
      search_files_tool pathExists t o = dumpsRowsIndent2 rows ∧
      advanced_search_tool pathExists t o = dumpsRowsIndent2 rows)
    ∨ (∃ msg, search_files_tool pathExists t o = mcp_error_json msg ∧
      advanced_search_tool pathExists t o = mcp_error_json msg) := by
  cases pathExists with
  | false =>
    right
    exact ⟨pyStrOfSearchExc (SearchExc.fileNotFoundError
      ("Everything Search executable not found at: " ++ default_es_path)), rfl, rfl⟩
  | true =>
    cases hs : search t o with
    | ok rows =>
      left
      refine ⟨rows, rfl, rfl, ?_, ?_⟩ <;>
        simp [search_files_tool, search_files_body, advanced_search_tool,
          advanced_search_body, everything_search_init, hs]
    | error e =>
      right
      refine ⟨pyStrOfSearchExc e, ?_, ?_⟩ <;>
        simp [search_files_tool, search_files_body, advanced_search_tool,
          advanced_search_body, everything_search_init, hs]

/-- Claim C9: a well-delimited input whose header has a `"Size"` column and
whose data row is ragged (one field short) makes the parser raise: the
missing field is the `None` restval, and `None.isdigit()` raises
`AttributeError`, so the parser is not total on ragged input. -/
theorem c9_ragged_row_raises :
    _parse_csv_output "Name,Size\nfile.txt" =
      Except.error (PyExc.attributeError
        "\x27NoneType\x27 object has no attribute \x27isdigit\x27") := by decide

/-- Claim C10: whenever the subprocess call of `get_version` returns a
completed process, the trimmed stdout is returned whatever the exit code;
the exit code is never inspected and no execution-failure error is
raised. -/
theorem c10_version_ignores_exit_code (rc : Int) (out err : String) :
    get_version (CallOutcome.completed rc out err) = Except.ok (pyStrip out) := rfl
